import Mathlib

set_option maxRecDepth 8192

/-!
Verification of the snapshot-metadata gateway: a shallow embedding of the
request validators, the stream-forwarding loop, the handler pipeline, the
client iterator library and the verifier emitter, with theorems checking
the specified behaviour of each.

Conventions of the embedding:
* Go errors are `GoError`: either a structured gRPC status error or an
  unstructured plain error; `nil` errors are `Option.none`.
* Nilable Go pointers become `Option`; the protobuf getter methods, which
  tolerate nil receivers, are embedded as functions on `Option` requests.
* External collaborators that the source calls but whose code lives in
  other packages (the cluster API, the token reviewer) are environment
  parameters; their outcomes are fields of explicit environment records.
* Calls with observable side effects are recorded in an effect trace that
  each embedded operation returns alongside its result.
-/

namespace SnapshotMetadata

/-- gRPC status codes used by the gateway (the subset that appears in the
sources and the spec). -/
inductive Code where
  | ok
  | invalidArgument
  | unauthenticated
  | unavailable
  | internal
  | aborted
  deriving DecidableEq

/-- A Go error as seen by the gateway: either a structured gRPC status error
(code and message) or an unstructured plain error. -/
inductive GoError where
  | statusErr (code : Code) (msg : String)
  | plainErr (msg : String)
  deriving DecidableEq

/-- The human-readable text of a Go error. -/
def GoError.text : GoError → String
  | .statusErr _ m => m
  | .plainErr m => m

/-- Modelled from the spec: the fixed message "security token missing"
(the message constants live in a server source file that is not part of the
provided sources; their values are taken from the spec, section 4.6). -/
def msgInvalidArgumentSecurityTokenMissing : String := "security token missing"

/-- Modelled from the spec: the fixed message "Namespace missing". -/
def msgInvalidArgumentNamespaceMissing : String := "Namespace missing"

/-- Modelled from the spec: the fixed message for a missing snapshot name. -/
def msgInvalidArgumentSnaphotNameMissing : String := "SnapshotName missing"

/-- Modelled from the spec: the fixed message for a missing base snapshot name. -/
def msgInvalidArgumentBaseSnapshotNameMissing : String := "BaseSnapshotName missing"

/-- Modelled from the spec: the fixed message for a missing target snapshot name. -/
def msgInvalidArgumentTargetSnapshotNameMissing : String := "TargetSnapshotName missing"

/-- Modelled from the spec: the fixed message "driver not ready". -/
def msgUnavailableCSIDriverNotReady : String := "driver not ready"

/-- Modelled from the spec: the stem "CSI driver response failure" of the
Internal error wrapping an unstructured driver error. -/
def msgInternalFailedCSIDriverResponse : String := "CSI driver response failure"

/-- Modelled from the spec: the stem "failed to send response" of the
Internal error wrapping a failed send to the caller stream. -/
def msgInternalFailedToSendResponse : String := "failed to send response"

/-- Modelled from the spec: the formatted CSI-driver-response wrap message,
stem followed by the wrapped error text. -/
def msgInternalFailedCSIDriverResponseFmt (e : GoError) : String :=
  msgInternalFailedCSIDriverResponse ++ ": " ++ e.text

/-- Modelled from the spec: the formatted send-response wrap message, stem
followed by the wrapped error text.  The lowercase "to" in the name follows
the source constant. -/
def msgInternalFailedtoSendResponseFmt (e : GoError) : String :=
  msgInternalFailedToSendResponse ++ ": " ++ e.text

/-- Modelled from the spec: the driver-mismatch message, parameterized by the
snapshot name and the configured driver name. -/
def msgInvalidArgumentSnaphotDriverInvalidFmt (snapshotName driverName : String) : String :=
  "invalid driver name for snapshot " ++ snapshotName ++ ", expected " ++ driverName

/-- Modelled from the spec: the message for a Delta request whose base and
target snapshots have different source volumes. -/
def msgInvalidArgumentDiffSnapshotSourceVolumes : String :=
  "the base and target snapshots have different source volumes"

/-- Modelled from the spec: statusPassOrWrapError propagates a structured
status error verbatim, and wraps an unstructured error with the given code
and formatted message. -/
def statusPassOrWrapError (err : GoError) (code : Code) (msg : String) : GoError :=
  match err with
  | .statusErr c m => .statusErr c m
  | .plainErr _ => .statusErr code msg

/-- A Go length test len(s) == 0 is the same as an emptiness test. -/
theorem string_length_zero_iff (s : String) : s.length = 0 ↔ s = "" := by
  constructor
  · intro h
    apply String.ext
    exact List.length_eq_zero.mp h
  · intro h
    subst h
    rfl

/-- The api.GetMetadataAllocatedRequest message.  The Go field Namespace is
embedded as the field nsName. -/
structure GetMetadataAllocatedRequest where
  securityToken : String
  nsName : String
  snapshotName : String
  startingOffset : Int
  maxResults : Int
  deriving DecidableEq

/-- The api.GetMetadataDeltaRequest message. -/
structure GetMetadataDeltaRequest where
  securityToken : String
  nsName : String
  baseSnapshotName : String
  targetSnapshotName : String
  startingOffset : Int
  maxResults : Int
  deriving DecidableEq

/-- The nil-tolerant protobuf getter GetSecurityToken on a possibly-nil
Allocated request. -/
def getSecurityTokenAlloc : Option GetMetadataAllocatedRequest → String
  | none => ""
  | some r => r.securityToken

/-- The nil-tolerant protobuf getter GetNamespace on a possibly-nil
Allocated request. -/
def getNamespaceAlloc : Option GetMetadataAllocatedRequest → String
  | none => ""
  | some r => r.nsName

/-- The nil-tolerant protobuf getter GetSnapshotName on a possibly-nil
Allocated request. -/
def getSnapshotNameAlloc : Option GetMetadataAllocatedRequest → String
  | none => ""
  | some r => r.snapshotName

/-- The nil-tolerant protobuf getter GetStartingOffset on a possibly-nil
Allocated request. -/
def getStartingOffsetAlloc : Option GetMetadataAllocatedRequest → Int
  | none => 0
  | some r => r.startingOffset

/-- The nil-tolerant protobuf getter GetMaxResults on a possibly-nil
Allocated request. -/
def getMaxResultsAlloc : Option GetMetadataAllocatedRequest → Int
  | none => 0
  | some r => r.maxResults

/-- The nil-tolerant protobuf getter GetSecurityToken on a possibly-nil
Delta request. -/
def getSecurityTokenDelta : Option GetMetadataDeltaRequest → String
  | none => ""
  | some r => r.securityToken

/-- The nil-tolerant protobuf getter GetNamespace on a possibly-nil Delta
request. -/
def getNamespaceDelta : Option GetMetadataDeltaRequest → String
  | none => ""
  | some r => r.nsName

/-- The nil-tolerant protobuf getter GetBaseSnapshotName on a possibly-nil
Delta request. -/
def getBaseSnapshotNameDelta : Option GetMetadataDeltaRequest → String
  | none => ""
  | some r => r.baseSnapshotName

/-- The nil-tolerant protobuf getter GetTargetSnapshotName on a possibly-nil
Delta request. -/
def getTargetSnapshotNameDelta : Option GetMetadataDeltaRequest → String
  | none => ""
  | some r => r.targetSnapshotName

/-- validateGetMetadataAllocatedRequest: require a non-empty security token,
namespace and snapshot name, in that order, via the nil-tolerant getters. -/
def validateGetMetadataAllocatedRequest (req : Option GetMetadataAllocatedRequest) :
    Option GoError :=
  if (getSecurityTokenAlloc req).length = 0 then
    some (.statusErr .invalidArgument msgInvalidArgumentSecurityTokenMissing)
  else if (getNamespaceAlloc req).length = 0 then
    some (.statusErr .invalidArgument msgInvalidArgumentNamespaceMissing)
  else if (getSnapshotNameAlloc req).length = 0 then
    some (.statusErr .invalidArgument msgInvalidArgumentSnaphotNameMissing)
  else
    none

/-- Modelled from the spec: validateGetMetadataDeltaRequest (its code is not
among the provided sources; its behaviour is fixed by the spec, which
requires a non-empty token, namespace, baseSnapshotName and
targetSnapshotName in that order, and by its in-source test). -/
def validateGetMetadataDeltaRequest (req : Option GetMetadataDeltaRequest) :
    Option GoError :=
  if (getSecurityTokenDelta req).length = 0 then
    some (.statusErr .invalidArgument msgInvalidArgumentSecurityTokenMissing)
  else if (getNamespaceDelta req).length = 0 then
    some (.statusErr .invalidArgument msgInvalidArgumentNamespaceMissing)
  else if (getBaseSnapshotNameDelta req).length = 0 then
    some (.statusErr .invalidArgument msgInvalidArgumentBaseSnapshotNameMissing)
  else if (getTargetSnapshotNameDelta req).length = 0 then
    some (.statusErr .invalidArgument msgInvalidArgumentTargetSnapshotNameMissing)
  else
    none

/-- C3: for every request to either streaming endpoint with at least one
required field empty, validation fails with an InvalidArgument status naming
the first missing field in the fixed order: token, namespace, snapshotName
for Allocated, and token, namespace, baseSnapshotName, targetSnapshotName
for Delta; in particular a request missing both token and namespace reports
the token as missing. -/
theorem claim_C3_first_missing_field
    (ra : Option GetMetadataAllocatedRequest) (rd : Option GetMetadataDeltaRequest) :
    (getSecurityTokenAlloc ra = "" →
      validateGetMetadataAllocatedRequest ra =
        some (.statusErr .invalidArgument msgInvalidArgumentSecurityTokenMissing)) ∧
    (getSecurityTokenAlloc ra ≠ "" → getNamespaceAlloc ra = "" →
      validateGetMetadataAllocatedRequest ra =
        some (.statusErr .invalidArgument msgInvalidArgumentNamespaceMissing)) ∧
    (getSecurityTokenAlloc ra ≠ "" → getNamespaceAlloc ra ≠ "" →
        getSnapshotNameAlloc ra = "" →
      validateGetMetadataAllocatedRequest ra =
        some (.statusErr .invalidArgument msgInvalidArgumentSnaphotNameMissing)) ∧
    (getSecurityTokenDelta rd = "" →
      validateGetMetadataDeltaRequest rd =
        some (.statusErr .invalidArgument msgInvalidArgumentSecurityTokenMissing)) ∧
    (getSecurityTokenDelta rd ≠ "" → getNamespaceDelta rd = "" →
      validateGetMetadataDeltaRequest rd =
        some (.statusErr .invalidArgument msgInvalidArgumentNamespaceMissing)) ∧
    (getSecurityTokenDelta rd ≠ "" → getNamespaceDelta rd ≠ "" →
        getBaseSnapshotNameDelta rd = "" →
      validateGetMetadataDeltaRequest rd =
        some (.statusErr .invalidArgument msgInvalidArgumentBaseSnapshotNameMissing)) ∧
    (getSecurityTokenDelta rd ≠ "" → getNamespaceDelta rd ≠ "" →
        getBaseSnapshotNameDelta rd ≠ "" → getTargetSnapshotNameDelta rd = "" →
      validateGetMetadataDeltaRequest rd =
        some (.statusErr .invalidArgument msgInvalidArgumentTargetSnapshotNameMissing)) := by
  refine ⟨?_, ?_, ?_, ?_, ?_, ?_, ?_⟩
  · intro h1
    simp [validateGetMetadataAllocatedRequest, string_length_zero_iff, h1]
  · intro h1 h2
    simp [validateGetMetadataAllocatedRequest, string_length_zero_iff, h1, h2]
  · intro h1 h2 h3
    simp [validateGetMetadataAllocatedRequest, string_length_zero_iff, h1, h2, h3]
  · intro h1
    simp [validateGetMetadataDeltaRequest, string_length_zero_iff, h1]
  · intro h1 h2
    simp [validateGetMetadataDeltaRequest, string_length_zero_iff, h1, h2]
  · intro h1 h2 h3
    simp [validateGetMetadataDeltaRequest, string_length_zero_iff, h1, h2, h3]
  · intro h1 h2 h3 h4
    simp [validateGetMetadataDeltaRequest, string_length_zero_iff, h1, h2, h3, h4]

/-- Witness for C3: concrete requests exercising each branch, including a
request missing both token and namespace, which reports the token. -/
theorem claim_C3_first_missing_field_witness :
    (getSecurityTokenAlloc (some ⟨"", "", "snap-1", 0, 0⟩) = "" ∧
      validateGetMetadataAllocatedRequest (some ⟨"", "", "snap-1", 0, 0⟩) =
        some (.statusErr .invalidArgument msgInvalidArgumentSecurityTokenMissing)) ∧
    (validateGetMetadataAllocatedRequest (some ⟨"token", "", "snap-1", 0, 0⟩) =
        some (.statusErr .invalidArgument msgInvalidArgumentNamespaceMissing)) ∧
    (validateGetMetadataAllocatedRequest (some ⟨"token", "test-ns", "", 0, 0⟩) =
        some (.statusErr .invalidArgument msgInvalidArgumentSnaphotNameMissing)) ∧
    (validateGetMetadataDeltaRequest (some ⟨"", "", "", "", 0, 0⟩) =
        some (.statusErr .invalidArgument msgInvalidArgumentSecurityTokenMissing)) ∧
    (validateGetMetadataDeltaRequest (some ⟨"token", "", "snap-1", "snap-2", 0, 0⟩) =
        some (.statusErr .invalidArgument msgInvalidArgumentNamespaceMissing)) ∧
    (validateGetMetadataDeltaRequest (some ⟨"token", "test-ns", "", "snap-2", 0, 0⟩) =
        some (.statusErr .invalidArgument msgInvalidArgumentBaseSnapshotNameMissing)) ∧
    (validateGetMetadataDeltaRequest (some ⟨"token", "test-ns", "snap-1", "", 0, 0⟩) =
        some (.statusErr .invalidArgument msgInvalidArgumentTargetSnapshotNameMissing)) := by
  have h1 := claim_C3_first_missing_field (some ⟨"", "", "snap-1", 0, 0⟩) (some ⟨"", "", "", "", 0, 0⟩)
  have h2 := claim_C3_first_missing_field (some ⟨"token", "", "snap-1", 0, 0⟩)
    (some ⟨"token", "", "snap-1", "snap-2", 0, 0⟩)
  have h3 := claim_C3_first_missing_field (some ⟨"token", "test-ns", "", 0, 0⟩)
    (some ⟨"token", "test-ns", "", "snap-2", 0, 0⟩)
  have h4 := claim_C3_first_missing_field (some ⟨"token", "test-ns", "snap-1", 0, 0⟩)
    (some ⟨"token", "test-ns", "snap-1", "", 0, 0⟩)
  refine ⟨⟨rfl, h1.1 rfl⟩, h2.2.1 (by decide) rfl, h3.2.2.1 (by decide) (by decide) rfl,
    h1.2.2.2.1 rfl, h2.2.2.2.2.1 (by decide) rfl,
    h3.2.2.2.2.2.1 (by decide) (by decide) rfl,
    h4.2.2.2.2.2.2 (by decide) (by decide) (by decide) rfl⟩

/-- C9: passing a nil (absent) request to either streaming-request validator
is total and returns the InvalidArgument security-token-missing error (the
first-field check), because every field access goes through nil-tolerant
getters. -/
theorem claim_C9_nil_request_safe :
    validateGetMetadataAllocatedRequest none =
      some (.statusErr .invalidArgument msgInvalidArgumentSecurityTokenMissing) ∧
    validateGetMetadataDeltaRequest none =
      some (.statusErr .invalidArgument msgInvalidArgumentSecurityTokenMissing) := by
  exact ⟨rfl, rfl⟩

/-- The csi.BlockMetadata message: one extent of the driver response. -/
structure CSIBlockMetadata where
  byteOffset : Int
  sizeBytes : Int
  deriving DecidableEq

/-- The api.BlockMetadata message: one extent of the caller response. -/
structure APIBlockMetadata where
  byteOffset : Int
  sizeBytes : Int
  deriving DecidableEq

/-- The csi.GetMetadataAllocatedResponse message.  The protobuf enum
BlockMetadataType is an integer on the wire and is embedded as Int. -/
structure CSIGetMetadataAllocatedResponse where
  blockMetadataType : Int
  volumeCapacityBytes : Int
  blockMetadata : List CSIBlockMetadata
  deriving DecidableEq

/-- The api.GetMetadataAllocatedResponse message. -/
structure APIGetMetadataAllocatedResponse where
  blockMetadataType : Int
  volumeCapacityBytes : Int
  blockMetadata : List APIBlockMetadata
  deriving DecidableEq

/-- convertToGetMetadataAllocatedResponse: the field-by-field translation of
a driver record into the caller record shape (the source builds the
blockMetadata list by appending one translated extent per input extent,
which is a map). -/
def convertToGetMetadataAllocatedResponse (csiResp : CSIGetMetadataAllocatedResponse) :
    APIGetMetadataAllocatedResponse where
  blockMetadataType := csiResp.blockMetadataType
  volumeCapacityBytes := csiResp.volumeCapacityBytes
  blockMetadata := csiResp.blockMetadata.map fun b => ⟨b.byteOffset, b.sizeBytes⟩

/-- The terminal outcome of a driver stream: a clean end of stream (io.EOF
from Recv) or an error. -/
inductive StreamTerminal where
  | eof
  | err (e : GoError)
  deriving DecidableEq

/-- A complete run of the driver-side stream: the records Recv yields in
order, then the terminal outcome. -/
structure CSIAllocatedStream where
  records : List CSIGetMetadataAllocatedResponse
  terminal : StreamTerminal

/-- One iteration step count: the caller stream Send outcome for the k-th
record (0-based), supplied by the environment. -/
def SendBehavior : Type := Nat → Option GoError

/-- The translation loop of streamGetMetadataAllocatedResponse: receive one
record, translate it, send it; on io.EOF return success; on a driver error
pass or wrap it as Internal/CSIDriverResponse; on a send error pass or wrap
it as Internal/SendResponse.  Returns the records sent to the caller and the
handler result (none is the nil error, success). -/
def streamGetMetadataAllocatedResponseLoop (send : SendBehavior) :
    Nat → List CSIGetMetadataAllocatedResponse → StreamTerminal →
    List APIGetMetadataAllocatedResponse × Option GoError
  | _, [], .eof => ([], none)
  | _, [], .err e =>
    ([], some (statusPassOrWrapError e .internal (msgInternalFailedCSIDriverResponseFmt e)))
  | k, r :: rs, term =>
    let clientResp := convertToGetMetadataAllocatedResponse r
    match send k with
    | some e =>
      ([], some (statusPassOrWrapError e .internal (msgInternalFailedtoSendResponseFmt e)))
    | none =>
      let rest := streamGetMetadataAllocatedResponseLoop send (k + 1) rs term
      (clientResp :: rest.1, rest.2)

/-- streamGetMetadataAllocatedResponse: run the translation loop over a
complete driver stream, starting before the first record. -/
def streamGetMetadataAllocatedResponse (send : SendBehavior) (st : CSIAllocatedStream) :
    List APIGetMetadataAllocatedResponse × Option GoError :=
  streamGetMetadataAllocatedResponseLoop send 0 st.records st.terminal

/-- When every send succeeds, the loop forwards each record through the
field-by-field translation and ends with the terminal classification. -/
theorem streamLoop_sends_all (send : SendBehavior) (h : ∀ k, send k = none) :
    ∀ (recs : List CSIGetMetadataAllocatedResponse) (k : Nat) (term : StreamTerminal),
      streamGetMetadataAllocatedResponseLoop send k recs term =
        (recs.map convertToGetMetadataAllocatedResponse,
          match term with
          | .eof => none
          | .err e =>
            some (statusPassOrWrapError e .internal (msgInternalFailedCSIDriverResponseFmt e))) := by
  intro recs
  induction recs with
  | nil =>
    intro k term
    cases term <;> rfl
  | cons r rs ih =>
    intro k term
    simp [streamGetMetadataAllocatedResponseLoop, h k, ih (k + 1) term]

/-- Field-by-field record equality between a caller record and a driver
record: the metadata type, the capacity and the ordered list of
byte-offset and size pairs all agree. -/
def respFieldEq (a : APIGetMetadataAllocatedResponse) (c : CSIGetMetadataAllocatedResponse) :
    Prop :=
  a.blockMetadataType = c.blockMetadataType ∧
  a.volumeCapacityBytes = c.volumeCapacityBytes ∧
  a.blockMetadata.map (fun b => (b.byteOffset, b.sizeBytes)) =
    c.blockMetadata.map (fun b => (b.byteOffset, b.sizeBytes))

/-- The translation preserves every field of a record. -/
theorem convert_respFieldEq (c : CSIGetMetadataAllocatedResponse) :
    respFieldEq (convertToGetMetadataAllocatedResponse c) c := by
  refine ⟨rfl, rfl, ?_⟩
  simp [convertToGetMetadataAllocatedResponse]

/-- C1: for every valid request, the handler stream forwarding is one-for-one
and order-preserving: if the driver stream yields records r1..rn and then
closes cleanly, and every send to the caller succeeds, the caller receives
exactly n records in the same order and then a clean close, each emitted
record equal to the corresponding driver record field-by-field, with no
batching or splitting. -/
theorem claim_C1_stream_forwarding_one_for_one (send : SendBehavior)
    (recs : List CSIGetMetadataAllocatedResponse) (h : ∀ k, send k = none) :
    (streamGetMetadataAllocatedResponse send ⟨recs, .eof⟩).2 = none ∧
    (streamGetMetadataAllocatedResponse send ⟨recs, .eof⟩).1.length = recs.length ∧
    ∀ i : Nat, i < recs.length →
      respFieldEq ((streamGetMetadataAllocatedResponse send ⟨recs, .eof⟩).1.getD i ⟨0, 0, []⟩)
        (recs.getD i ⟨0, 0, []⟩) := by
  have hrun : streamGetMetadataAllocatedResponse send ⟨recs, .eof⟩ =
      (recs.map convertToGetMetadataAllocatedResponse, none) := by
    simp [streamGetMetadataAllocatedResponse, streamLoop_sends_all send h recs 0 .eof]
  refine ⟨by simp [hrun], by simp [hrun], ?_⟩
  intro i hi
  have hi2 : i < (recs.map convertToGetMetadataAllocatedResponse).length := by
    simpa using hi
  rw [hrun]
  simp only [List.getD_eq_getElem _ _ hi2, List.getD_eq_getElem _ _ hi, List.getElem_map]
  exact convert_respFieldEq _

/-- Witness for C1: a concrete always-succeeding send and the two driver
records of the happy-path allocated scenario of the spec. -/
theorem claim_C1_stream_forwarding_one_for_one_witness :
    (∀ k, (fun _ : Nat => (none : Option GoError)) k = none) ∧
    ((streamGetMetadataAllocatedResponse (fun _ => none)
        ⟨[⟨1, 1073741824, [⟨0, 1024⟩]⟩, ⟨1, 1073741824, [⟨1, 1024⟩, ⟨2, 1024⟩]⟩], .eof⟩).2 = none ∧
      (streamGetMetadataAllocatedResponse (fun _ => none)
        ⟨[⟨1, 1073741824, [⟨0, 1024⟩]⟩, ⟨1, 1073741824, [⟨1, 1024⟩, ⟨2, 1024⟩]⟩], .eof⟩).1.length =
        ([⟨1, 1073741824, [⟨0, 1024⟩]⟩,
          ⟨1, 1073741824, [⟨1, 1024⟩, ⟨2, 1024⟩]⟩] : List CSIGetMetadataAllocatedResponse).length ∧
      ∀ i : Nat, i < ([⟨1, 1073741824, [⟨0, 1024⟩]⟩,
          ⟨1, 1073741824, [⟨1, 1024⟩, ⟨2, 1024⟩]⟩] : List CSIGetMetadataAllocatedResponse).length →
        respFieldEq ((streamGetMetadataAllocatedResponse (fun _ => none)
            ⟨[⟨1, 1073741824, [⟨0, 1024⟩]⟩,
              ⟨1, 1073741824, [⟨1, 1024⟩, ⟨2, 1024⟩]⟩], .eof⟩).1.getD i ⟨0, 0, []⟩)
          (([⟨1, 1073741824, [⟨0, 1024⟩]⟩,
            ⟨1, 1073741824, [⟨1, 1024⟩, ⟨2, 1024⟩]⟩] :
              List CSIGetMetadataAllocatedResponse).getD i ⟨0, 0, []⟩)) :=
  ⟨fun _ => rfl,
    claim_C1_stream_forwarding_one_for_one (fun _ => none)
      [⟨1, 1073741824, [⟨0, 1024⟩]⟩, ⟨1, 1073741824, [⟨1, 1024⟩, ⟨2, 1024⟩]⟩]
      (fun _ => rfl)⟩

/-- C2: the translation loop classifies every terminal condition: end of
stream yields success; a structured driver status error is propagated with
code and message unchanged; an unstructured driver error becomes an
Internal error whose message extends the CSI-driver-response stem; a send
error is wrapped as an Internal send-response error when unstructured and
propagated verbatim when it is already a status. -/
theorem claim_C2_terminal_classification (send : SendBehavior)
    (recs : List CSIGetMetadataAllocatedResponse) (h : ∀ k, send k = none) :
    ((streamGetMetadataAllocatedResponse send ⟨recs, .eof⟩).2 = none) ∧
    (∀ c m, (streamGetMetadataAllocatedResponse send ⟨recs, .err (.statusErr c m)⟩).2 =
      some (.statusErr c m)) ∧
    (∀ m, (streamGetMetadataAllocatedResponse send ⟨recs, .err (.plainErr m)⟩).2 =
      some (.statusErr .internal (msgInternalFailedCSIDriverResponseFmt (.plainErr m))) ∧
      ∃ tail, msgInternalFailedCSIDriverResponseFmt (GoError.plainErr m) =
        msgInternalFailedCSIDriverResponse ++ tail) ∧
    (∀ (r : CSIGetMetadataAllocatedResponse) rs term m,
      (streamGetMetadataAllocatedResponse (fun _ => some (.plainErr m)) ⟨r :: rs, term⟩).2 =
        some (.statusErr .internal (msgInternalFailedtoSendResponseFmt (.plainErr m)))) ∧
    (∀ (r : CSIGetMetadataAllocatedResponse) rs term c m,
      (streamGetMetadataAllocatedResponse (fun _ => some (.statusErr c m)) ⟨r :: rs, term⟩).2 =
        some (.statusErr c m)) := by
  refine ⟨?_, ?_, ?_, ?_, ?_⟩
  · simp [streamGetMetadataAllocatedResponse, streamLoop_sends_all send h recs 0]
  · intro c m
    simp [streamGetMetadataAllocatedResponse, streamLoop_sends_all send h recs 0,
      statusPassOrWrapError]
  · intro m
    constructor
    · simp [streamGetMetadataAllocatedResponse, streamLoop_sends_all send h recs 0,
        statusPassOrWrapError]
    · exact ⟨": " ++ m, by simp [msgInternalFailedCSIDriverResponseFmt, GoError.text,
        String.append_assoc]⟩
  · intro r rs term m
    simp [streamGetMetadataAllocatedResponse, streamGetMetadataAllocatedResponseLoop,
      statusPassOrWrapError]
  · intro r rs term c m
    simp [streamGetMetadataAllocatedResponse, streamGetMetadataAllocatedResponseLoop,
      statusPassOrWrapError]

/-- Witness for C2: the clean-send hypothesis discharged at the constant
always-nil send behavior with the empty record list. -/
theorem claim_C2_terminal_classification_witness :
    (∀ k, (fun _ : Nat => (none : Option GoError)) k = none) ∧
    (((streamGetMetadataAllocatedResponse (fun _ => none)
        ⟨([] : List CSIGetMetadataAllocatedResponse), .eof⟩).2 = none) ∧
      (∀ c m, (streamGetMetadataAllocatedResponse (fun _ => none)
        ⟨([] : List CSIGetMetadataAllocatedResponse), .err (.statusErr c m)⟩).2 =
          some (.statusErr c m)) ∧
      (∀ m, (streamGetMetadataAllocatedResponse (fun _ => none)
        ⟨([] : List CSIGetMetadataAllocatedResponse), .err (.plainErr m)⟩).2 =
          some (.statusErr .internal (msgInternalFailedCSIDriverResponseFmt (.plainErr m))) ∧
        ∃ tail, msgInternalFailedCSIDriverResponseFmt (GoError.plainErr m) =
          msgInternalFailedCSIDriverResponse ++ tail) ∧
      (∀ (r : CSIGetMetadataAllocatedResponse) rs term m,
        (streamGetMetadataAllocatedResponse (fun _ => some (.plainErr m)) ⟨r :: rs, term⟩).2 =
          some (.statusErr .internal (msgInternalFailedtoSendResponseFmt (.plainErr m)))) ∧
      (∀ (r : CSIGetMetadataAllocatedResponse) rs term c m,
        (streamGetMetadataAllocatedResponse (fun _ => some (.statusErr c m)) ⟨r :: rs, term⟩).2 =
          some (.statusErr c m))) :=
  ⟨fun _ => rfl, claim_C2_terminal_classification (fun _ => none) [] (fun _ => rfl)⟩

/-- A cluster VolumeSnapshot as read by the resolver: nilable status fields
and the source claim name. -/
structure VolumeSnapshot where
  readyToUse : Option Bool
  boundVolumeSnapshotContentName : Option String
  sourceClaimName : Option String
  deriving DecidableEq

/-- A cluster VolumeSnapshotContent as read by the resolver. -/
structure VolumeSnapshotContent where
  driver : String
  readyToUse : Option Bool
  snapshotHandle : Option String
  snapshotClassName : Option String
  deriving DecidableEq

/-- The cluster API as an environment: per-request lookups of snapshots,
contents, the secret reference named by a snapshot class, and secrets. -/
structure ClusterEnv where
  getVolumeSnapshot : String → String → Except String VolumeSnapshot
  getVolumeSnapshotContent : String → Except String VolumeSnapshotContent
  classSecretName : String → Option String
  getSecret : String → Except String (List (String × String))

/-- Modelled from the spec: the Unavailable message for a failed snapshot
read, parameterized by namespace, name and the underlying error. -/
def msgUnavailableFailedToGetVolumeSnapshotFmt (nsName name e : String) : String :=
  "failed to get VolumeSnapshot " ++ nsName ++ "/" ++ name ++ ": " ++ e

/-- Modelled from the spec: the Unavailable message for a snapshot that is
not ready to use. -/
def msgUnavailableVolumeSnapshotNotReadyFmt (name : String) : String :=
  "VolumeSnapshot " ++ name ++ " is not ready to use"

/-- Modelled from the spec: the Unavailable message for a snapshot without a
bound content name. -/
def msgUnavailableInvalidVolumeSnapshotStatusFmt (name : String) : String :=
  "VolumeSnapshot " ++ name ++ " has an invalid status"

/-- Modelled from the spec: the Unavailable message for a failed content
read. -/
def msgUnavailableFailedToGetVolumeSnapshotContentFmt (name e : String) : String :=
  "failed to get VolumeSnapshotContent " ++ name ++ ": " ++ e

/-- Modelled from the spec: the Unavailable message for a content that is
not ready to use. -/
def msgUnavailableVolumeSnapshotContentNotReadyFmt (name : String) : String :=
  "VolumeSnapshotContent " ++ name ++ " is not ready to use"

/-- Modelled from the spec: the Unavailable message for a content without a
snapshot handle. -/
def msgUnavailableInvalidVolumeSnapshotContentStatusFmt (name : String) : String :=
  "VolumeSnapshotContent " ++ name ++ " has an invalid status"

/-- Modelled from the spec: the Unavailable message stem for a failed secret
fetch. -/
def msgUnavailableFailedToGetCredentials : String := "failed to get credentials"

/-- The resolved snapshot information handed back by getVolSnapshotInfo:
the content driver, the snapshot handle, the source claim and the class. -/
structure VolSnapshotInfo where
  driverName : String
  snapshotHandle : String
  sourceClaimName : Option String
  snapshotClassName : Option String
  deriving DecidableEq

/-- One observable side effect of a handler: an authentication (token
review) call, a readiness-flag read, a cluster fetch, or the driver call. -/
inductive ServerEffect where
  | authCall
  | readyCheck
  | fetchSnapshot (nsName name : String)
  | fetchContent (name : String)
  | fetchSecret (name : String)
  | driverCall
  deriving DecidableEq

/-- Modelled from the spec: getVolSnapshotInfo (resolveSnapshot), whose code
is not among the provided sources: fetch the snapshot, require readiness and
a bound content name, fetch the content, require readiness and a snapshot
handle; the driver-identity check is performed by the callers, as in the
provided Allocated converter source.  Returns the result with the ordered
trace of cluster fetches. -/
def getVolSnapshotInfo (c : ClusterEnv) (nsName name : String) :
    Except GoError VolSnapshotInfo × List ServerEffect :=
  match c.getVolumeSnapshot nsName name with
  | .error e =>
    (.error (.statusErr .unavailable (msgUnavailableFailedToGetVolumeSnapshotFmt nsName name e)),
      [.fetchSnapshot nsName name])
  | .ok vs =>
    if vs.readyToUse ≠ some true then
      (.error (.statusErr .unavailable (msgUnavailableVolumeSnapshotNotReadyFmt name)),
        [.fetchSnapshot nsName name])
    else
      match vs.boundVolumeSnapshotContentName with
      | none =>
        (.error (.statusErr .unavailable (msgUnavailableInvalidVolumeSnapshotStatusFmt name)),
          [.fetchSnapshot nsName name])
      | some cn =>
        match c.getVolumeSnapshotContent cn with
        | .error e =>
          (.error (.statusErr .unavailable (msgUnavailableFailedToGetVolumeSnapshotContentFmt cn e)),
            [.fetchSnapshot nsName name, .fetchContent cn])
        | .ok vsc =>
          if vsc.readyToUse ≠ some true then
            (.error (.statusErr .unavailable (msgUnavailableVolumeSnapshotContentNotReadyFmt cn)),
              [.fetchSnapshot nsName name, .fetchContent cn])
          else
            match vsc.snapshotHandle with
            | none =>
              (.error
                (.statusErr .unavailable (msgUnavailableInvalidVolumeSnapshotContentStatusFmt cn)),
                [.fetchSnapshot nsName name, .fetchContent cn])
            | some h =>
              (.ok ⟨vsc.driver, h, vs.sourceClaimName, vsc.snapshotClassName⟩,
                [.fetchSnapshot nsName name, .fetchContent cn])

/-- Modelled from the spec: getSnapshotterCredentials (credentialsFor): an
absent class name or a class without a secret reference yields the empty
map without any fetch; otherwise the named secret is fetched and a failure
becomes Unavailable/FailedToGetCredentials. -/
def getSnapshotterCredentials (c : ClusterEnv) (vsi : VolSnapshotInfo) :
    Except GoError (List (String × String)) × List ServerEffect :=
  match vsi.snapshotClassName with
  | none => (.ok [], [])
  | some cls =>
    match c.classSecretName cls with
    | none => (.ok [], [])
    | some sec =>
      match c.getSecret sec with
      | .error e =>
        (.error (.statusErr .unavailable (msgUnavailableFailedToGetCredentials ++ ": " ++ e)),
          [.fetchSecret sec])
      | .ok m => (.ok m, [.fetchSecret sec])

/-- The csi.GetMetadataAllocatedRequest assembled for the driver. -/
structure CSIGetMetadataAllocatedRequest where
  snapshotId : String
  startingOffset : Int
  maxResults : Int
  secrets : List (String × String)
  deriving DecidableEq

/-- The csi.GetMetadataDeltaRequest assembled for the driver. -/
structure CSIGetMetadataDeltaRequest where
  baseSnapshotId : String
  targetSnapshotId : String
  startingOffset : Int
  maxResults : Int
  secrets : List (String × String)
  deriving DecidableEq

/-- convertToCSIGetMetadataAllocatedRequest: resolve the snapshot, require
the content driver to equal the configured driver, fetch the credentials,
and assemble the driver request. -/
def convertToCSIGetMetadataAllocatedRequest (c : ClusterEnv) (cfgDriverName : String)
    (req : Option GetMetadataAllocatedRequest) :
    Except GoError CSIGetMetadataAllocatedRequest × List ServerEffect :=
  let vres := getVolSnapshotInfo c (getNamespaceAlloc req) (getSnapshotNameAlloc req)
  match vres.1 with
  | .error e => (.error e, vres.2)
  | .ok vsi =>
    if vsi.driverName ≠ cfgDriverName then
      (.error (.statusErr .invalidArgument
        (msgInvalidArgumentSnaphotDriverInvalidFmt (getSnapshotNameAlloc req) cfgDriverName)),
        vres.2)
    else
      let cres := getSnapshotterCredentials c vsi
      match cres.1 with
      | .error e => (.error e, vres.2 ++ cres.2)
      | .ok secretsMap =>
        (.ok ⟨vsi.snapshotHandle, getStartingOffsetAlloc req, getMaxResultsAlloc req, secretsMap⟩,
          vres.2 ++ cres.2)

/-- Modelled from the spec: convertToCSIGetMetadataDeltaRequest, whose code
is not among the provided sources: resolveComparablePair fetches the target
snapshot before the base, checks driver identity (target first), then
source-volume equality, then fetches the secrets of the target class. -/
def convertToCSIGetMetadataDeltaRequest (c : ClusterEnv) (cfgDriverName : String)
    (req : Option GetMetadataDeltaRequest) :
    Except GoError CSIGetMetadataDeltaRequest × List ServerEffect :=
  let tres := getVolSnapshotInfo c (getNamespaceDelta req) (getTargetSnapshotNameDelta req)
  match tres.1 with
  | .error e => (.error e, tres.2)
  | .ok tvsi =>
    let bres := getVolSnapshotInfo c (getNamespaceDelta req) (getBaseSnapshotNameDelta req)
    match bres.1 with
    | .error e => (.error e, tres.2 ++ bres.2)
    | .ok bvsi =>
      if tvsi.driverName ≠ cfgDriverName then
        (.error (.statusErr .invalidArgument
          (msgInvalidArgumentSnaphotDriverInvalidFmt (getTargetSnapshotNameDelta req)
            cfgDriverName)),
          tres.2 ++ bres.2)
      else if bvsi.driverName ≠ cfgDriverName then
        (.error (.statusErr .invalidArgument
          (msgInvalidArgumentSnaphotDriverInvalidFmt (getBaseSnapshotNameDelta req)
            cfgDriverName)),
          tres.2 ++ bres.2)
      else if bvsi.sourceClaimName ≠ tvsi.sourceClaimName then
        (.error (.statusErr .invalidArgument msgInvalidArgumentDiffSnapshotSourceVolumes),
          tres.2 ++ bres.2)
      else
        let cres := getSnapshotterCredentials c tvsi
        match cres.1 with
        | .error e => (.error e, tres.2 ++ bres.2 ++ cres.2)
        | .ok secretsMap =>
          (.ok ⟨bvsi.snapshotHandle, tvsi.snapshotHandle, getStartingOffsetAlloc none,
            getMaxResultsAlloc none, secretsMap⟩,
            tres.2 ++ bres.2 ++ cres.2)

/-- The server runtime as an environment: the cluster API, the configured
driver name, the authentication outcome, the readiness flag, the driver
stream-open outcome, the driver stream contents and the caller-stream send
behavior. -/
structure ServerEnv where
  cluster : ClusterEnv
  driverName : String
  authResult : Option GoError
  csiReady : Bool
  streamOpenErr : Option GoError
  csiAllocStream : CSIAllocatedStream
  sendErr : SendBehavior

/-- GetMetadataAllocated: validate, authenticate, readiness-gate, convert
(resolve and fetch credentials), open the driver stream and forward it,
each stage exiting early on failure.  Returns the records sent with the
handler result and the ordered effect trace. -/
def GetMetadataAllocated (s : ServerEnv) (req : Option GetMetadataAllocatedRequest) :
    (List APIGetMetadataAllocatedResponse × Option GoError) × List ServerEffect :=
  match validateGetMetadataAllocatedRequest req with
  | some e => (([], some e), [])
  | none =>
    match s.authResult with
    | some e => (([], some e), [.authCall])
    | none =>
      if s.csiReady = false then
        (([], some (.statusErr .unavailable msgUnavailableCSIDriverNotReady)),
          [.authCall, .readyCheck])
      else
        let conv := convertToCSIGetMetadataAllocatedRequest s.cluster s.driverName req
        match conv.1 with
        | .error e => (([], some e), [.authCall, .readyCheck] ++ conv.2)
        | .ok _ =>
          match s.streamOpenErr with
          | some e => (([], some e), [.authCall, .readyCheck] ++ conv.2 ++ [.driverCall])
          | none =>
            (streamGetMetadataAllocatedResponse s.sendErr s.csiAllocStream,
              [.authCall, .readyCheck] ++ conv.2 ++ [.driverCall])

/-- The resolver trace never contains a secret fetch. -/
theorem fetchSecret_not_in_getVolSnapshotInfo (c : ClusterEnv) (nsName name sec : String) :
    ServerEffect.fetchSecret sec ∉ (getVolSnapshotInfo c nsName name).2 := by
  unfold getVolSnapshotInfo
  rcases c.getVolumeSnapshot nsName name with e | vs
  · simp
  · simp only
    split
    · simp
    · rcases hb : vs.boundVolumeSnapshotContentName with _ | cn
      · simp
      · simp only
        rcases c.getVolumeSnapshotContent cn with e | vsc
        · simp
        · simp only
          split
          · simp
          · rcases vsc.snapshotHandle with _ | h
            · simp
            · simp

/-- C4: the handler pipeline executes validate, authenticate,
readiness-gate, resolve in that order with early exit: a request failing
validation returns its InvalidArgument error with an empty effect trace (no
cluster or driver contact); an authentication failure exits after the
authentication call alone; a false readiness flag returns the Unavailable
driver-not-ready error after only the authentication call and the readiness
check, before any snapshot resolution. -/
theorem claim_C4_pipeline_order_early_exit (s : ServerEnv)
    (req : Option GetMetadataAllocatedRequest) :
    (∀ e, validateGetMetadataAllocatedRequest req = some e →
      GetMetadataAllocated s req = (([], some e), [])) ∧
    (validateGetMetadataAllocatedRequest req = none → ∀ e, s.authResult = some e →
      GetMetadataAllocated s req = (([], some e), [.authCall])) ∧
    (validateGetMetadataAllocatedRequest req = none → s.authResult = none →
      s.csiReady = false →
      GetMetadataAllocated s req =
        (([], some (.statusErr .unavailable msgUnavailableCSIDriverNotReady)),
          [.authCall, .readyCheck])) := by
  refine ⟨?_, ?_, ?_⟩
  · intro e hv
    simp [GetMetadataAllocated, hv]
  · intro hv e ha
    simp [GetMetadataAllocated, hv, ha]
  · intro hv ha hr
    simp [GetMetadataAllocated, hv, ha, hr]

/-- The cluster environment used by the C4 witness; every lookup fails, so
any cluster contact would be visible in the result. -/
def c4Cluster : ClusterEnv where
  getVolumeSnapshot := fun _ _ => .error "unreached"
  getVolumeSnapshotContent := fun _ => .error "unreached"
  classSecretName := fun _ => none
  getSecret := fun _ => .error "unreached"

/-- The C4 witness environment with a failing authenticator. -/
def c4EnvAuthFail : ServerEnv :=
  ⟨c4Cluster, "driver-X", some (.statusErr .unauthenticated "invalid user"), true, none,
    ⟨[], .eof⟩, fun _ => none⟩

/-- The C4 witness environment with a not-ready driver connection. -/
def c4EnvNotReady : ServerEnv :=
  ⟨c4Cluster, "driver-X", none, false, none, ⟨[], .eof⟩, fun _ => none⟩

/-- The valid request used by the C4 witness. -/
def c4ReqValid : GetMetadataAllocatedRequest := ⟨"token", "test-ns", "snap-1", 0, 256⟩

/-- Witness for C4: a nil request exits at validation with no effects; a
valid request against a failing authenticator exits after the
authentication call; a valid request against a not-ready driver exits with
driver-not-ready after the readiness check, no resolution performed. -/
theorem claim_C4_pipeline_order_early_exit_witness :
    (validateGetMetadataAllocatedRequest none =
      some (.statusErr .invalidArgument msgInvalidArgumentSecurityTokenMissing) ∧
      GetMetadataAllocated c4EnvAuthFail none =
        (([], some (.statusErr .invalidArgument msgInvalidArgumentSecurityTokenMissing)), [])) ∧
    (GetMetadataAllocated c4EnvAuthFail (some c4ReqValid) =
      (([], some (.statusErr .unauthenticated "invalid user")), [.authCall])) ∧
    (GetMetadataAllocated c4EnvNotReady (some c4ReqValid) =
      (([], some (.statusErr .unavailable msgUnavailableCSIDriverNotReady)),
        [.authCall, .readyCheck])) :=
  ⟨⟨rfl, (claim_C4_pipeline_order_early_exit c4EnvAuthFail none).1 _ rfl⟩,
    (claim_C4_pipeline_order_early_exit c4EnvAuthFail (some c4ReqValid)).2.1 (by decide) _ rfl,
    (claim_C4_pipeline_order_early_exit c4EnvNotReady (some c4ReqValid)).2.2 (by decide) rfl rfl⟩

/-- C5: when the resolved content driver differs from the configured driver,
request conversion fails with the InvalidArgument driver-mismatch error
parameterized by the snapshot name and the configured driver, with no
secret fetch; a resolution (existence or readiness) failure takes
precedence over the driver check; for Delta the driver check takes
precedence over the source-volume check, and differing source volumes fail
with the InvalidArgument different-source-volumes error before any secret
fetch. -/
theorem claim_C5_driver_mismatch_order (c : ClusterEnv) (cfg : String)
    (ra : Option GetMetadataAllocatedRequest) (rd : Option GetMetadataDeltaRequest) :
    (∀ vsi, (getVolSnapshotInfo c (getNamespaceAlloc ra) (getSnapshotNameAlloc ra)).1 = .ok vsi →
      vsi.driverName ≠ cfg →
      (convertToCSIGetMetadataAllocatedRequest c cfg ra).1 =
        .error (.statusErr .invalidArgument
          (msgInvalidArgumentSnaphotDriverInvalidFmt (getSnapshotNameAlloc ra) cfg)) ∧
      ∀ sec, ServerEffect.fetchSecret sec ∉ (convertToCSIGetMetadataAllocatedRequest c cfg ra).2) ∧
    (∀ e, (getVolSnapshotInfo c (getNamespaceAlloc ra) (getSnapshotNameAlloc ra)).1 = .error e →
      (convertToCSIGetMetadataAllocatedRequest c cfg ra).1 = .error e ∧
      ∀ sec, ServerEffect.fetchSecret sec ∉ (convertToCSIGetMetadataAllocatedRequest c cfg ra).2) ∧
    (∀ tvsi bvsi,
      (getVolSnapshotInfo c (getNamespaceDelta rd) (getTargetSnapshotNameDelta rd)).1 =
        .ok tvsi →
      (getVolSnapshotInfo c (getNamespaceDelta rd) (getBaseSnapshotNameDelta rd)).1 = .ok bvsi →
      tvsi.driverName ≠ cfg →
      (convertToCSIGetMetadataDeltaRequest c cfg rd).1 =
        .error (.statusErr .invalidArgument
          (msgInvalidArgumentSnaphotDriverInvalidFmt (getTargetSnapshotNameDelta rd) cfg)) ∧
      ∀ sec, ServerEffect.fetchSecret sec ∉ (convertToCSIGetMetadataDeltaRequest c cfg rd).2) ∧
    (∀ tvsi bvsi,
      (getVolSnapshotInfo c (getNamespaceDelta rd) (getTargetSnapshotNameDelta rd)).1 =
        .ok tvsi →
      (getVolSnapshotInfo c (getNamespaceDelta rd) (getBaseSnapshotNameDelta rd)).1 = .ok bvsi →
      tvsi.driverName = cfg → bvsi.driverName = cfg →
      bvsi.sourceClaimName ≠ tvsi.sourceClaimName →
      (convertToCSIGetMetadataDeltaRequest c cfg rd).1 =
        .error (.statusErr .invalidArgument msgInvalidArgumentDiffSnapshotSourceVolumes) ∧
      ∀ sec, ServerEffect.fetchSecret sec ∉ (convertToCSIGetMetadataDeltaRequest c cfg rd).2) := by
  refine ⟨?_, ?_, ?_, ?_⟩
  · intro vsi hok hne
    simp only [convertToCSIGetMetadataAllocatedRequest]
    rw [hok]
    constructor
    · simp [hne]
    · intro sec
      simp [hne]
      exact fetchSecret_not_in_getVolSnapshotInfo c _ _ sec
  · intro e herr
    simp only [convertToCSIGetMetadataAllocatedRequest]
    rw [herr]
    exact ⟨rfl, fun sec => fetchSecret_not_in_getVolSnapshotInfo c _ _ sec⟩
  · intro tvsi bvsi htok hbok hne
    simp only [convertToCSIGetMetadataDeltaRequest]
    rw [htok, hbok]
    constructor
    · simp [hne]
    · intro sec
      simp [hne, List.mem_append]
      exact ⟨fetchSecret_not_in_getVolSnapshotInfo c _ _ sec,
        fetchSecret_not_in_getVolSnapshotInfo c _ _ sec⟩
  · intro tvsi bvsi htok hbok hteq hbeq hsrc
    simp only [convertToCSIGetMetadataDeltaRequest]
    rw [htok, hbok]
    constructor
    · simp [hteq, hbeq, hsrc]
    · intro sec
      simp [hteq, hbeq, hsrc, List.mem_append]
      exact ⟨fetchSecret_not_in_getVolSnapshotInfo c _ _ sec,
        fetchSecret_not_in_getVolSnapshotInfo c _ _ sec⟩

/-- C5 witness cluster: every snapshot resolves to a ready content whose
driver is driver-unexpected. -/
def c5ClusterMismatch : ClusterEnv where
  getVolumeSnapshot := fun _ _ => .ok ⟨some true, some "content-1", some "pvc-1"⟩
  getVolumeSnapshotContent := fun _ => .ok ⟨"driver-unexpected", some true, some "handle-1", none⟩
  classSecretName := fun _ => none
  getSecret := fun _ => .error "unused"

/-- C5 witness cluster: the snapshot is not ready and its content driver is
also mismatched, separating the readiness check from the driver check. -/
def c5ClusterNotReady : ClusterEnv where
  getVolumeSnapshot := fun _ _ => .ok ⟨some false, some "content-1", some "pvc-1"⟩
  getVolumeSnapshotContent := fun _ => .ok ⟨"driver-unexpected", some true, some "handle-1", none⟩
  classSecretName := fun _ => none
  getSecret := fun _ => .error "unused"

/-- C5 witness cluster for Delta: the target content has a mismatched driver
and the two snapshots also have different source volumes. -/
def c5ClusterDeltaMismatch : ClusterEnv where
  getVolumeSnapshot := fun _ n => .ok ⟨some true, some ("content-" ++ n), some ("volume-" ++ n)⟩
  getVolumeSnapshotContent := fun cn =>
    .ok ⟨if cn = "content-snap-2" then "driver-unexpected" else "driver-X",
      some true, some ("h-" ++ cn), none⟩
  classSecretName := fun _ => none
  getSecret := fun _ => .error "unused"

/-- C5 witness cluster for Delta: both contents carry the configured driver
but the snapshots have different source volumes. -/
def c5ClusterDeltaDiffVol : ClusterEnv where
  getVolumeSnapshot := fun _ n => .ok ⟨some true, some ("content-" ++ n), some ("volume-" ++ n)⟩
  getVolumeSnapshotContent := fun cn => .ok ⟨"driver-X", some true, some ("h-" ++ cn), none⟩
  classSecretName := fun _ => none
  getSecret := fun _ => .error "unused"

/-- The Allocated request of the C5 witness. -/
def c5ReqAlloc : GetMetadataAllocatedRequest :=
  ⟨"token", "test-ns", "snap-with-invalid-driver", 0, 256⟩

/-- The Delta request of the C5 witness. -/
def c5ReqDelta : GetMetadataDeltaRequest := ⟨"token", "test-ns", "snap-1", "snap-2", 0, 256⟩

/-- Witness for C5: the four scenarios at concrete clusters: the Allocated
driver mismatch, the readiness error taking precedence over a driver
mismatch, the Delta target driver mismatch taking precedence over differing
source volumes, and the Delta different-source-volumes failure; in each,
no secret fetch appears in the trace. -/
theorem claim_C5_driver_mismatch_order_witness :
    ((convertToCSIGetMetadataAllocatedRequest c5ClusterMismatch "driver-X" (some c5ReqAlloc)).1 =
      .error (.statusErr .invalidArgument
        (msgInvalidArgumentSnaphotDriverInvalidFmt "snap-with-invalid-driver" "driver-X")) ∧
      ∀ sec, ServerEffect.fetchSecret sec ∉
        (convertToCSIGetMetadataAllocatedRequest c5ClusterMismatch "driver-X"
          (some c5ReqAlloc)).2) ∧
    ((convertToCSIGetMetadataAllocatedRequest c5ClusterNotReady "driver-X" (some c5ReqAlloc)).1 =
      .error (.statusErr .unavailable
        (msgUnavailableVolumeSnapshotNotReadyFmt "snap-with-invalid-driver")) ∧
      ∀ sec, ServerEffect.fetchSecret sec ∉
        (convertToCSIGetMetadataAllocatedRequest c5ClusterNotReady "driver-X"
          (some c5ReqAlloc)).2) ∧
    ((convertToCSIGetMetadataDeltaRequest c5ClusterDeltaMismatch "driver-X" (some c5ReqDelta)).1 =
      .error (.statusErr .invalidArgument
        (msgInvalidArgumentSnaphotDriverInvalidFmt "snap-2" "driver-X")) ∧
      ∀ sec, ServerEffect.fetchSecret sec ∉
        (convertToCSIGetMetadataDeltaRequest c5ClusterDeltaMismatch "driver-X"
          (some c5ReqDelta)).2) ∧
    ((convertToCSIGetMetadataDeltaRequest c5ClusterDeltaDiffVol "driver-X" (some c5ReqDelta)).1 =
      .error (.statusErr .invalidArgument msgInvalidArgumentDiffSnapshotSourceVolumes) ∧
      ∀ sec, ServerEffect.fetchSecret sec ∉
        (convertToCSIGetMetadataDeltaRequest c5ClusterDeltaDiffVol "driver-X"
          (some c5ReqDelta)).2) := by
  refine ⟨?_, ?_, ?_, ?_⟩
  · exact (claim_C5_driver_mismatch_order c5ClusterMismatch "driver-X" (some c5ReqAlloc)
      (some c5ReqDelta)).1 ⟨"driver-unexpected", "handle-1", some "pvc-1", none⟩ rfl (by decide)
  · exact (claim_C5_driver_mismatch_order c5ClusterNotReady "driver-X" (some c5ReqAlloc)
      (some c5ReqDelta)).2.1 (.statusErr .unavailable
        (msgUnavailableVolumeSnapshotNotReadyFmt "snap-with-invalid-driver")) rfl
  · exact (claim_C5_driver_mismatch_order c5ClusterDeltaMismatch "driver-X" (some c5ReqAlloc)
      (some c5ReqDelta)).2.2.1
      ⟨"driver-unexpected", "h-content-snap-2", some "volume-snap-2", none⟩
      ⟨"driver-X", "h-content-snap-1", some "volume-snap-1", none⟩ rfl rfl (by decide)
  · exact (claim_C5_driver_mismatch_order c5ClusterDeltaDiffVol "driver-X" (some c5ReqAlloc)
      (some c5ReqDelta)).2.2.2
      ⟨"driver-X", "h-content-snap-2", some "volume-snap-2", none⟩
      ⟨"driver-X", "h-content-snap-1", some "volume-snap-1", none⟩ rfl rfl rfl rfl (by decide)

/-- An error of the iterator library: an error wrapping the ErrInvalidArgs
sentinel, the ErrCACert sentinel, or any other error with its message. -/
inductive IterError where
  | invalidArgs (msg : String)
  | caCert
  | other (msg : String)
  deriving DecidableEq

/-- One metadata record handed to the emitter, as assembled by the receive
loops from a received response. -/
structure IteratorMetadata where
  blockMetadataType : Int
  volumeCapacityBytes : Int
  blockMetadata : List APIBlockMetadata
  deriving DecidableEq

/-- The IteratorEmitter interface, embedded by the outcomes of its two
operations: the per-record callback and the completion callback. -/
structure IteratorEmitter where
  snapshotMetadataIteratorRecord : Nat → IteratorMetadata → Option IterError
  snapshotMetadataIteratorDone : Nat → Option IterError

/-- The Clients container of the iterator Args.  Its own Validate method is
not among the provided sources and is abstracted by its outcome. -/
structure Clients where
  validateErr : Option IterError

/-- The iterator Args.  The Go field Namespace is embedded as nsName; the
Emitter is nilable; CSIDriver, SANamespace, SAName, PrevSnapshotName are
optional strings. -/
structure Args where
  clients : Clients
  emitter : Option IteratorEmitter
  nsName : String
  snapshotName : String
  prevSnapshotName : String
  startingOffset : Int
  maxResults : Int
  csiDriver : String
  saNamespace : String
  saName : String
  tokenExpirySecs : Int

/-- Args.Validate from the source: a switch requiring, in order, a non-nil
Emitter, a non-empty Namespace and SnapshotName, a non-negative
TokenExpirySecs and MaxResults, and symmetric emptiness of SANamespace and
SAName, then delegating to the client-handle validation. -/
def Args.Validate (a : Args) : Option IterError :=
  if a.emitter.isNone then some (.invalidArgs "missing Emitter")
  else if a.nsName = "" then some (.invalidArgs "missing Namespace")
  else if a.snapshotName = "" then some (.invalidArgs "missing SnapshotName")
  else if a.tokenExpirySecs < 0 then some (.invalidArgs "invalid TokenExpirySecs")
  else if a.maxResults < 0 then some (.invalidArgs "invalid MaxResults")
  else if a.saNamespace = "" ∧ a.saName ≠ "" then
    some (.invalidArgs "SAName provided but SANamespace missing")
  else if a.saNamespace ≠ "" ∧ a.saName = "" then
    some (.invalidArgs "SANamespace provided but SAName missing")
  else a.clients.validateErr

/-- One call observed on the emitter sink. -/
inductive SinkCall where
  | record (recordNumber : Nat) (m : IteratorMetadata)
  | done (numberRecords : Nat)
  deriving DecidableEq

/-- The api.GetMetadataDeltaResponse message received by the client. -/
structure APIGetMetadataDeltaResponse where
  blockMetadataType : Int
  volumeCapacityBytes : Int
  blockMetadata : List APIBlockMetadata
  deriving DecidableEq

/-- A complete run of the client-visible Allocated stream. -/
structure IterStream where
  records : List APIGetMetadataAllocatedResponse
  terminal : StreamTerminal

/-- A complete run of the client-visible Delta stream. -/
structure IterDeltaStream where
  records : List APIGetMetadataDeltaResponse
  terminal : StreamTerminal

/-- The IteratorMetadata built from one received Allocated response. -/
def metadataOf (r : APIGetMetadataAllocatedResponse) : IteratorMetadata :=
  ⟨r.blockMetadataType, r.volumeCapacityBytes, r.blockMetadata⟩

/-- The IteratorMetadata built from one received Delta response. -/
def metadataOfDelta (r : APIGetMetadataDeltaResponse) : IteratorMetadata :=
  ⟨r.blockMetadataType, r.volumeCapacityBytes, r.blockMetadata⟩

/-- The receive loop of getAllocatedBlocks: on each record increment the
record number, hand the record to the emitter with its number, and stop on
the first emitter error (returned verbatim); io.EOF yields success; a Recv
error is wrapped with the call description.  Returns the final record
number, the ordered sink calls, and the outcome. -/
def getAllocatedBlocksLoop (em : IteratorEmitter) (nsName snapshotName : String) :
    Nat → List APIGetMetadataAllocatedResponse → StreamTerminal →
    Nat × List SinkCall × Option IterError
  | recordNum, [], .eof => (recordNum, [], none)
  | recordNum, [], .err e =>
    (recordNum, [],
      some (.other ("GetMetadataAllocated(" ++ nsName ++ "," ++ snapshotName ++ ").Recv: " ++
        e.text)))
  | recordNum, r :: rs, term =>
    match em.snapshotMetadataIteratorRecord (recordNum + 1) (metadataOf r) with
    | some e => (recordNum + 1, [.record (recordNum + 1) (metadataOf r)], some e)
    | none =>
      let rest := getAllocatedBlocksLoop em nsName snapshotName (recordNum + 1) rs term
      (rest.1, .record (recordNum + 1) (metadataOf r) :: rest.2.1, rest.2.2)

/-- getAllocatedBlocks: open the Allocated stream (a failure is wrapped with
the call description) and run the receive loop. -/
def getAllocatedBlocks (em : IteratorEmitter) (nsName snapshotName : String) (recordNum : Nat)
    (openErr : Option GoError) (st : IterStream) : Nat × List SinkCall × Option IterError :=
  match openErr with
  | some e =>
    (recordNum, [],
      some (.other ("GetMetadataAllocated(" ++ nsName ++ "," ++ snapshotName ++ "): " ++ e.text)))
  | none => getAllocatedBlocksLoop em nsName snapshotName recordNum st.records st.terminal

/-- The receive loop of getChangedBlocks, identical in structure to the
Allocated loop with the Delta call description. -/
def getChangedBlocksLoop (em : IteratorEmitter) (nsName prevName snapshotName : String) :
    Nat → List APIGetMetadataDeltaResponse → StreamTerminal →
    Nat × List SinkCall × Option IterError
  | recordNum, [], .eof => (recordNum, [], none)
  | recordNum, [], .err e =>
    (recordNum, [],
      some (.other ("GetMetadataDelta(" ++ nsName ++ "," ++ prevName ++ "," ++ snapshotName ++
        ").Recv: " ++ e.text)))
  | recordNum, r :: rs, term =>
    match em.snapshotMetadataIteratorRecord (recordNum + 1) (metadataOfDelta r) with
    | some e => (recordNum + 1, [.record (recordNum + 1) (metadataOfDelta r)], some e)
    | none =>
      let rest := getChangedBlocksLoop em nsName prevName snapshotName (recordNum + 1) rs term
      (rest.1, .record (recordNum + 1) (metadataOfDelta r) :: rest.2.1, rest.2.2)

/-- getChangedBlocks: open the Delta stream and run the receive loop. -/
def getChangedBlocks (em : IteratorEmitter) (nsName prevName snapshotName : String)
    (recordNum : Nat) (openErr : Option GoError) (st : IterDeltaStream) :
    Nat × List SinkCall × Option IterError :=
  match openErr with
  | some e =>
    (recordNum, [],
      some (.other ("GetMetadataDelta(" ++ nsName ++ "," ++ prevName ++ "," ++ snapshotName ++
        "): " ++ e.text)))
  | none => getChangedBlocksLoop em nsName prevName snapshotName recordNum st.records st.terminal

/-- The well-known username marker of service accounts, the source constant
whose value is "system:serviceaccount:". -/
def k8sServiceAccountUserNameHeader : String := "system:serviceaccount:"

/-- The worker of stringsSplit: split the remaining characters around every
separator occurrence, accumulating the current field in reverse. -/
def stringsSplitAux (sep : Char) : List Char → List Char → List String
  | [], acc => [String.mk acc.reverse]
  | c :: cs, acc =>
    if c = sep then String.mk acc.reverse :: stringsSplitAux sep cs []
    else stringsSplitAux sep cs (c :: acc)

/-- Go strings.Split for a one-character separator: the fields around every
separator occurrence, empty fields preserved. -/
def stringsSplit (s : String) (sep : Char) : List String :=
  stringsSplitAux sep s.data []

/-- The Go leading-substring test from the strings package: whether the
second string is a leading substring of the first. -/
def stringsHasPre (s marker : String) : Bool :=
  marker.data.isPrefixOf s.data

/-- getDefaultServiceAccount: issue a self-subject review; when the returned
username starts with the service-account marker and splits on colons into
exactly four fields, the namespace is the third field and the name the
fourth; otherwise the ErrInvalidArgs-wrapped error is returned. -/
def getDefaultServiceAccount (ssr : Except String String) :
    Except IterError (String × String) :=
  match ssr with
  | .error e => .error (.other ("SelfSubjectReviews.Create(): " ++ e))
  | .ok username =>
    if stringsHasPre username k8sServiceAccountUserNameHeader then
      match stringsSplit username ':' with
      | [_, _, nsField, saField] => .ok (nsField, saField)
      | _ =>
        .error (.invalidArgs "ServiceAccount unspecified and default cannot be determined")
    else
      .error (.invalidArgs "ServiceAccount unspecified and default cannot be determined")

/-- The SnapshotMetadataService CR spec: audience, address and CA
certificate. -/
structure SmsCR where
  audience : String
  address : String
  caCert : String
  deriving DecidableEq

/-- The iterator runtime as an environment: the self-subject-review
username, the driver discovered from the primary snapshot, the CR lookup,
the token mint, the client construction, the stream-open outcome and the
stream contents of both calls. -/
structure RunEnv where
  ssrUsername : Except String String
  primarySnapshotDriver : Except IterError String
  smsCR : String → Except IterError SmsCR
  securityToken : String → String → String → Except IterError String
  grpcClientErr : Option IterError
  streamOpenErr : Option GoError
  allocStream : IterStream
  deltaStream : IterDeltaStream

/-- One observable step of an iterator run. -/
inductive IterEffect where
  | selfSubjectReview
  | fetchPrimarySnapshotDriver
  | fetchSmsCR (driver : String)
  | createToken (saNamespace saName audience : String)
  | newGRPCClient
  | sink (c : SinkCall)
  deriving DecidableEq

/-- Iterator Run: resolve the service account when SAName is empty, discover
the driver when CSIDriver is empty, load the CR, mint the token, build the
client, drive the Allocated call when PrevSnapshotName is empty and the
Delta call otherwise, and invoke the Done callback only when the streaming
phase succeeded.  The record number starts at zero as in NewIterator. -/
def iteratorRun (env : RunEnv) (em : IteratorEmitter) (a : Args) :
    Option IterError × List IterEffect :=
  let saStep : Except IterError (String × String) × List IterEffect :=
    if a.saName = "" then (getDefaultServiceAccount env.ssrUsername, [.selfSubjectReview])
    else (.ok (a.saNamespace, a.saName), [])
  match saStep.1 with
  | .error e => (some e, saStep.2)
  | .ok sa =>
    let drvStep : Except IterError String × List IterEffect :=
      if a.csiDriver = "" then (env.primarySnapshotDriver, [.fetchPrimarySnapshotDriver])
      else (.ok a.csiDriver, [])
    match drvStep.1 with
    | .error e => (some e, saStep.2 ++ drvStep.2)
    | .ok drv =>
      match env.smsCR drv with
      | .error e => (some e, saStep.2 ++ drvStep.2 ++ [.fetchSmsCR drv])
      | .ok cr =>
        match env.securityToken sa.1 sa.2 cr.audience with
        | .error e =>
          (some e, saStep.2 ++ drvStep.2 ++
            [.fetchSmsCR drv, .createToken sa.1 sa.2 cr.audience])
        | .ok _ =>
          match env.grpcClientErr with
          | some e =>
            (some e, saStep.2 ++ drvStep.2 ++
              [.fetchSmsCR drv, .createToken sa.1 sa.2 cr.audience, .newGRPCClient])
          | none =>
            let pre := saStep.2 ++ drvStep.2 ++
              [IterEffect.fetchSmsCR drv, IterEffect.createToken sa.1 sa.2 cr.audience,
                IterEffect.newGRPCClient]
            let blk :=
              if a.prevSnapshotName = "" then
                getAllocatedBlocks em a.nsName a.snapshotName 0 env.streamOpenErr
                  env.allocStream
              else
                getChangedBlocks em a.nsName a.prevSnapshotName a.snapshotName 0
                  env.streamOpenErr env.deltaStream
            match blk.2.2 with
            | some e => (some e, pre ++ blk.2.1.map IterEffect.sink)
            | none =>
              (em.snapshotMetadataIteratorDone blk.1,
                pre ++ blk.2.1.map IterEffect.sink ++ [.sink (.done blk.1)])

/-- A trivially succeeding emitter used by the C6 theorems. -/
def c6Emitter : IteratorEmitter := ⟨fun _ _ => none, fun _ => none⟩

/-- C6 counterexample input: every validated option is fine but the starting
offset is negative. -/
def c6ArgsNegOffset : Args :=
  { clients := ⟨none⟩, emitter := some c6Emitter, nsName := "test-ns",
    snapshotName := "snap-1", prevSnapshotName := "", startingOffset := -5, maxResults := 0,
    csiDriver := "", saNamespace := "sa-ns", saName := "sa-1", tokenExpirySecs := 60 }

/-- C6 counterexample input: both the sink and the namespace are missing. -/
def c6ArgsSinkAndNamespaceMissing : Args :=
  { clients := ⟨none⟩, emitter := none, nsName := "", snapshotName := "",
    prevSnapshotName := "", startingOffset := 0, maxResults := 0, csiDriver := "",
    saNamespace := "", saName := "", tokenExpirySecs := 0 }

/-- C6 counterexample input: a negative maxResults, an asymmetric service
account and a negative tokenExpirySecs together. -/
def c6ArgsLateOptionsViolated : Args :=
  { clients := ⟨none⟩, emitter := some c6Emitter, nsName := "test-ns",
    snapshotName := "snap-1", prevSnapshotName := "", startingOffset := 0, maxResults := -2,
    csiDriver := "", saNamespace := "", saName := "sa-1", tokenExpirySecs := -1 }

/-- C6 counterexample: validation accepts a negative startingOffset (the
claim requires it rejected); an argument set missing both the namespace and
the sink reports the sink (the claim requires the namespace first and the
sink last); and an argument set violating maxResults, the service-account
pair and tokenExpirySecs together reports tokenExpirySecs (the claim
requires maxResults, listed earlier, to be reported). -/
theorem claim_C6_counterexample :
    Args.Validate c6ArgsNegOffset = none ∧
    Args.Validate c6ArgsSinkAndNamespaceMissing =
      some (.invalidArgs "missing Emitter") ∧
    Args.Validate c6ArgsLateOptionsViolated =
      some (.invalidArgs "invalid TokenExpirySecs") := by
  exact ⟨by decide, by decide, by decide⟩

/-- C6 amended: validation rejects the first violated option in the source
order: the sink (Emitter) is required and checked first, then namespace,
snapshotName, non-negative tokenExpirySecs, non-negative maxResults,
symmetric emptiness of saNamespace and saName, then the client handles;
prevSnapshotName, startingOffset and driverName are not validated at all. -/
theorem claim_C6_amended_validation_order (a : Args) :
    (a.emitter.isNone = true → Args.Validate a = some (.invalidArgs "missing Emitter")) ∧
    (a.emitter.isNone = false → a.nsName = "" →
      Args.Validate a = some (.invalidArgs "missing Namespace")) ∧
    (a.emitter.isNone = false → a.nsName ≠ "" → a.snapshotName = "" →
      Args.Validate a = some (.invalidArgs "missing SnapshotName")) ∧
    (a.emitter.isNone = false → a.nsName ≠ "" → a.snapshotName ≠ "" →
      a.tokenExpirySecs < 0 →
      Args.Validate a = some (.invalidArgs "invalid TokenExpirySecs")) ∧
    (a.emitter.isNone = false → a.nsName ≠ "" → a.snapshotName ≠ "" →
      0 ≤ a.tokenExpirySecs → a.maxResults < 0 →
      Args.Validate a = some (.invalidArgs "invalid MaxResults")) ∧
    (a.emitter.isNone = false → a.nsName ≠ "" → a.snapshotName ≠ "" →
      0 ≤ a.tokenExpirySecs → 0 ≤ a.maxResults → a.saNamespace = "" → a.saName ≠ "" →
      Args.Validate a = some (.invalidArgs "SAName provided but SANamespace missing")) ∧
    (a.emitter.isNone = false → a.nsName ≠ "" → a.snapshotName ≠ "" →
      0 ≤ a.tokenExpirySecs → 0 ≤ a.maxResults → a.saNamespace ≠ "" → a.saName = "" →
      Args.Validate a = some (.invalidArgs "SANamespace provided but SAName missing")) ∧
    (a.emitter.isNone = false → a.nsName ≠ "" → a.snapshotName ≠ "" →
      0 ≤ a.tokenExpirySecs → 0 ≤ a.maxResults → (a.saNamespace = "" ↔ a.saName = "") →
      Args.Validate a = a.clients.validateErr) ∧
    (∀ off prev drv,
      Args.Validate
        { a with startingOffset := off, prevSnapshotName := prev, csiDriver := drv } =
        Args.Validate a) := by
  refine ⟨?_, ?_, ?_, ?_, ?_, ?_, ?_, ?_, ?_⟩
  · intro h1
    simp [Args.Validate, h1]
  · intro h1 h2
    simp [Args.Validate, h1, h2]
  · intro h1 h2 h3
    simp [Args.Validate, h1, h2, h3]
  · intro h1 h2 h3 h4
    simp [Args.Validate, h1, h2, h3, h4]
  · intro h1 h2 h3 h4 h5
    simp [Args.Validate, h1, h2, h3, not_lt.mpr h4, h5]
  · intro h1 h2 h3 h4 h5 h6 h7
    simp [Args.Validate, h1, h2, h3, not_lt.mpr h4, not_lt.mpr h5, h6, h7]
  · intro h1 h2 h3 h4 h5 h6 h7
    simp [Args.Validate, h1, h2, h3, not_lt.mpr h4, not_lt.mpr h5, h6, h7]
  · intro h1 h2 h3 h4 h5 h6
    by_cases hn : a.saNamespace = ""
    · have hs : a.saName = "" := h6.mp hn
      simp [Args.Validate, h1, h2, h3, not_lt.mpr h4, not_lt.mpr h5, hn, hs]
    · have hs : a.saName ≠ "" := fun hc => hn (h6.mpr hc)
      simp [Args.Validate, h1, h2, h3, not_lt.mpr h4, not_lt.mpr h5, hn, hs]
  · intro off prev drv
    rfl

/-- C6 amended-claim witness args: a fully valid set with a failing client
validation, exercising the final delegation and the pass-through of the
unvalidated options. -/
def c6ArgsClientErr : Args :=
  { clients := ⟨some (.other "client invalid")⟩, emitter := some c6Emitter,
    nsName := "test-ns", snapshotName := "snap-1", prevSnapshotName := "",
    startingOffset := 0, maxResults := 0, csiDriver := "", saNamespace := "sa-ns",
    saName := "sa-1", tokenExpirySecs := 0 }

/-- Witness for the amended C6: concrete argument sets exercising every
branch of the amended validation order, including the pass-through of
startingOffset, prevSnapshotName and driverName. -/
theorem claim_C6_amended_validation_order_witness :
    Args.Validate { c6ArgsClientErr with emitter := none } =
      some (.invalidArgs "missing Emitter") ∧
    Args.Validate { c6ArgsClientErr with nsName := "" } =
      some (.invalidArgs "missing Namespace") ∧
    Args.Validate { c6ArgsClientErr with snapshotName := "" } =
      some (.invalidArgs "missing SnapshotName") ∧
    Args.Validate { c6ArgsClientErr with tokenExpirySecs := -1, maxResults := -2 } =
      some (.invalidArgs "invalid TokenExpirySecs") ∧
    Args.Validate { c6ArgsClientErr with maxResults := -2 } =
      some (.invalidArgs "invalid MaxResults") ∧
    Args.Validate { c6ArgsClientErr with saNamespace := "" } =
      some (.invalidArgs "SAName provided but SANamespace missing") ∧
    Args.Validate { c6ArgsClientErr with saName := "" } =
      some (.invalidArgs "SANamespace provided but SAName missing") ∧
    Args.Validate c6ArgsClientErr = some (.other "client invalid") ∧
    Args.Validate
      { c6ArgsClientErr with
        startingOffset := -7, prevSnapshotName := "p", csiDriver := "d" } =
      Args.Validate c6ArgsClientErr := by
  refine ⟨?_, ?_, ?_, ?_, ?_, ?_, ?_, ?_, ?_⟩
  · exact (claim_C6_amended_validation_order _).1 rfl
  · exact (claim_C6_amended_validation_order _).2.1 rfl rfl
  · exact (claim_C6_amended_validation_order _).2.2.1 rfl (by decide) rfl
  · exact (claim_C6_amended_validation_order _).2.2.2.1 rfl (by decide) (by decide) (by decide)
  · exact (claim_C6_amended_validation_order _).2.2.2.2.1 rfl (by decide) (by decide)
      (by decide) (by decide)
  · exact (claim_C6_amended_validation_order _).2.2.2.2.2.1 rfl (by decide) (by decide)
      (by decide) (by decide) rfl (by decide)
  · exact (claim_C6_amended_validation_order _).2.2.2.2.2.2.1 rfl (by decide) (by decide)
      (by decide) (by decide) (by decide) rfl
  · exact (claim_C6_amended_validation_order _).2.2.2.2.2.2.2.1 rfl (by decide) (by decide)
      (by decide) (by decide) (by decide)
  · exact (claim_C6_amended_validation_order c6ArgsClientErr).2.2.2.2.2.2.2.2 (-7) "p" "d"

/-- C8: when the service-account name is unspecified, the iterator
self-identifies: a self-subject-review username starting with the
service-account marker and splitting on colons into exactly four fields
yields the pair (third field, fourth field); the concrete username
system:serviceaccount:ns-a:sa-b yields (ns-a, sa-b); any other username
shape yields the invalid-args error; and an identity-resolution failure
stops the run with no further step. -/
theorem claim_C8_self_identity_parsing :
    (∀ u a b c d, stringsHasPre u k8sServiceAccountUserNameHeader = true →
      stringsSplit u ':' = [a, b, c, d] →
      getDefaultServiceAccount (.ok u) = .ok (c, d)) ∧
    (getDefaultServiceAccount (.ok "system:serviceaccount:ns-a:sa-b") = .ok ("ns-a", "sa-b")) ∧
    (∀ u, stringsHasPre u k8sServiceAccountUserNameHeader = false →
      getDefaultServiceAccount (.ok u) =
        .error (.invalidArgs "ServiceAccount unspecified and default cannot be determined")) ∧
    (∀ u, stringsHasPre u k8sServiceAccountUserNameHeader = true →
      (stringsSplit u ':').length ≠ 4 →
      getDefaultServiceAccount (.ok u) =
        .error (.invalidArgs "ServiceAccount unspecified and default cannot be determined")) ∧
    (∀ (env : RunEnv) (em : IteratorEmitter) (a : Args) e, a.saName = "" →
      getDefaultServiceAccount env.ssrUsername = .error e →
      iteratorRun env em a = (some e, [.selfSubjectReview])) := by
  refine ⟨?_, ?_, ?_, ?_, ?_⟩
  · intro u a b c d h1 h2
    simp [getDefaultServiceAccount, h1, h2]
  · rfl
  · intro u h1
    simp [getDefaultServiceAccount, h1]
  · intro u h1 h2
    simp only [getDefaultServiceAccount, h1, if_true]
    rcases hl : stringsSplit u ':' with _ | ⟨a, _ | ⟨b, _ | ⟨c, _ | ⟨d, _ | ⟨e2, t⟩⟩⟩⟩⟩ <;>
      simp [hl] at h2 ⊢
  · intro env em a e h1 h2
    simp [iteratorRun, h1, h2]

/-- The run environment of the C8 witness: the self-subject review returns a
username without the service-account marker. -/
def c8Env : RunEnv :=
  { ssrUsername := .ok "kubernetes-admin", primarySnapshotDriver := .ok "driver-X",
    smsCR := fun _ => .ok ⟨"aud", "addr", "ca"⟩, securityToken := fun _ _ _ => .ok "tok",
    grpcClientErr := none, streamOpenErr := none, allocStream := ⟨[], .eof⟩,
    deltaStream := ⟨[], .eof⟩ }

/-- The args of the C8 witness: the service-account name is unspecified. -/
def c8Args : Args :=
  { clients := ⟨none⟩, emitter := some c6Emitter, nsName := "test-ns",
    snapshotName := "snap-1", prevSnapshotName := "", startingOffset := 0, maxResults := 0,
    csiDriver := "driver-X", saNamespace := "", saName := "", tokenExpirySecs := 600 }

/-- Witness for C8: the well-formed username parses to its third and fourth
fields; an unparseable username fails; and a run with an unresolvable
identity stops after the self-subject review alone. -/
theorem claim_C8_self_identity_parsing_witness :
    getDefaultServiceAccount (.ok "system:serviceaccount:ns-a:sa-b") = .ok ("ns-a", "sa-b") ∧
    getDefaultServiceAccount (.ok "kubernetes-admin") =
      .error (.invalidArgs "ServiceAccount unspecified and default cannot be determined") ∧
    getDefaultServiceAccount (.ok "system:serviceaccount:only:three:extra") =
      .error (.invalidArgs "ServiceAccount unspecified and default cannot be determined") ∧
    iteratorRun c8Env c6Emitter c8Args =
      (some (.invalidArgs "ServiceAccount unspecified and default cannot be determined"),
        [.selfSubjectReview]) := by
  refine ⟨?_, ?_, ?_, ?_⟩
  · exact (claim_C8_self_identity_parsing).1 "system:serviceaccount:ns-a:sa-b"
      "system" "serviceaccount" "ns-a" "sa-b" (by decide) (by decide)
  · exact (claim_C8_self_identity_parsing).2.2.1 "kubernetes-admin" (by decide)
  · exact (claim_C8_self_identity_parsing).2.2.2.1 "system:serviceaccount:only:three:extra"
      (by decide) (by decide)
  · exact (claim_C8_self_identity_parsing).2.2.2.2 c8Env c6Emitter c8Args
      (.invalidArgs "ServiceAccount unspecified and default cannot be determined") rfl rfl

/-- The sink calls a clean run makes for these records, starting after
record number k: record k+1, k+2, and so on, each with its metadata. -/
def numberedRecordCalls (k : Nat) : List APIGetMetadataAllocatedResponse → List SinkCall
  | [] => []
  | r :: rs => .record (k + 1) (metadataOf r) :: numberedRecordCalls (k + 1) rs

/-- When the emitter accepts every record, the receive loop numbers and
delivers every record and ends with the clean terminal. -/
theorem getAllocatedBlocksLoop_all_ok (em : IteratorEmitter) (nsName snapName : String)
    (h : ∀ j m, em.snapshotMetadataIteratorRecord j m = none) :
    ∀ (recs : List APIGetMetadataAllocatedResponse) (k : Nat),
      getAllocatedBlocksLoop em nsName snapName k recs .eof =
        (k + recs.length, numberedRecordCalls k recs, none) := by
  intro recs
  induction recs with
  | nil =>
    intro k
    simp [getAllocatedBlocksLoop, numberedRecordCalls]
  | cons r rs ih =>
    intro k
    simp [getAllocatedBlocksLoop, h, numberedRecordCalls, ih (k + 1)]
    omega

/-- When the emitter accepts the first records and rejects the next one, the
receive loop stops at the rejected record: the sink has seen the accepted
records and the rejected one, and the loop returns the emitter error. -/
theorem getAllocatedBlocksLoop_err_at (em : IteratorEmitter) (nsName snapName : String)
    (r : APIGetMetadataAllocatedResponse) (post : List APIGetMetadataAllocatedResponse)
    (e : IterError) (term : StreamTerminal) :
    ∀ (pre : List APIGetMetadataAllocatedResponse) (k : Nat),
      (∀ j m, j ≤ k + pre.length → em.snapshotMetadataIteratorRecord j m = none) →
      em.snapshotMetadataIteratorRecord (k + pre.length + 1) (metadataOf r) = some e →
      getAllocatedBlocksLoop em nsName snapName k (pre ++ r :: post) term =
        (k + pre.length + 1,
          numberedRecordCalls k pre ++ [.record (k + pre.length + 1) (metadataOf r)],
          some e) := by
  intro pre
  induction pre with
  | nil =>
    intro k h herr
    simp only [List.length_nil, Nat.add_zero] at herr
    simp [getAllocatedBlocksLoop, herr, numberedRecordCalls]
  | cons p ps ih =>
    intro k h herr
    simp only [List.length_cons] at h herr
    have hp : em.snapshotMetadataIteratorRecord (k + 1) (metadataOf p) = none :=
      h (k + 1) _ (by omega)
    have hrec := ih (k + 1) (fun j m hj => h j m (by omega))
      (by
        have hk : k + 1 + ps.length + 1 = k + (ps.length + 1) + 1 := by omega
        rw [hk]
        exact herr)
    simp only [List.cons_append, getAllocatedBlocksLoop, hp, numberedRecordCalls,
      List.append_eq, List.length_cons]
    rw [hrec]
    have harith : k + 1 + ps.length = k + (ps.length + 1) := by omega
    rw [harith]

/-- A clean-run call list contains no completion call. -/
theorem done_not_in_numberedRecordCalls (x : Nat) :
    ∀ (recs : List APIGetMetadataAllocatedResponse) (k : Nat),
      SinkCall.done x ∉ numberedRecordCalls k recs := by
  intro recs
  induction recs with
  | nil =>
    intro k
    simp [numberedRecordCalls]
  | cons r rs ih =>
    intro k
    simp [numberedRecordCalls, ih (k + 1)]

/-- The i-th call of a clean run carries record number k+i+1 and the
metadata of the i-th record: consecutive numbering from k+1. -/
theorem numberedRecordCalls_getD :
    ∀ (recs : List APIGetMetadataAllocatedResponse) (k i : Nat), i < recs.length →
      (numberedRecordCalls k recs).getD i (.done 0) =
        .record (k + i + 1) (metadataOf (recs.getD i ⟨0, 0, []⟩)) := by
  intro recs
  induction recs with
  | nil =>
    intro k i hi
    simp at hi
  | cons r rs ih =>
    intro k i hi
    cases i with
    | zero =>
      simp [numberedRecordCalls]
    | succ n =>
      have hn : n < rs.length := by simpa using hi
      simp only [numberedRecordCalls, List.getD_cons_succ]
      rw [ih (k + 1) n hn]
      have harith : k + 1 + n = k + (n + 1) := by omega
      rw [harith]

/-- C7: in every iterator run that reaches the streaming phase, records are
numbered consecutively from 1 and delivered to the sink with their numbers;
when the sink rejects record k the iterator returns exactly that error, the
sink has seen records 1..k-1 and the k-th as the failing call, and the
completion callback is never invoked; when the stream ends cleanly the
completion callback is invoked exactly once with the total record count. -/
theorem claim_C7_sink_delivery_protocol
    (env : RunEnv) (em : IteratorEmitter) (a : Args) (cr : SmsCR) (tok : String)
    (hsa : a.saName ≠ "") (hdrv : a.csiDriver ≠ "")
    (hcr : env.smsCR a.csiDriver = .ok cr)
    (htok : env.securityToken a.saNamespace a.saName cr.audience = .ok tok)
    (hcli : env.grpcClientErr = none) (hopen : env.streamOpenErr = none)
    (hprev : a.prevSnapshotName = "") :
    (∀ recs, env.allocStream = ⟨recs, .eof⟩ →
      (∀ j m, em.snapshotMetadataIteratorRecord j m = none) →
      iteratorRun env em a =
        (em.snapshotMetadataIteratorDone recs.length,
          [.fetchSmsCR a.csiDriver, .createToken a.saNamespace a.saName cr.audience,
            .newGRPCClient] ++
            (numberedRecordCalls 0 recs).map IterEffect.sink ++
            [.sink (.done recs.length)])) ∧
    (∀ pre r post e, env.allocStream = ⟨pre ++ r :: post, .eof⟩ →
      (∀ j m, j ≤ pre.length → em.snapshotMetadataIteratorRecord j m = none) →
      em.snapshotMetadataIteratorRecord (pre.length + 1) (metadataOf r) = some e →
      iteratorRun env em a =
        (some e,
          [.fetchSmsCR a.csiDriver, .createToken a.saNamespace a.saName cr.audience,
            .newGRPCClient] ++
            (numberedRecordCalls 0 pre ++
              [SinkCall.record (pre.length + 1) (metadataOf r)]).map IterEffect.sink) ∧
      ∀ x, IterEffect.sink (.done x) ∉ (iteratorRun env em a).2) ∧
    (∀ recs i, i < recs.length →
      (numberedRecordCalls 0 recs).getD i (.done 0) =
        .record (i + 1) (metadataOf (recs.getD i ⟨0, 0, []⟩))) := by
  refine ⟨?_, ?_, ?_⟩
  · intro recs hstream hall
    have hloop := getAllocatedBlocksLoop_all_ok em a.nsName a.snapshotName hall recs 0
    simp [iteratorRun, hsa, hdrv, hcr, htok, hcli, hprev, hopen, hstream,
      getAllocatedBlocks, hloop]
  · intro pre r post e hstream hpre herr
    have hloop := getAllocatedBlocksLoop_err_at em a.nsName a.snapshotName r post e .eof pre 0
      (fun j m hj => hpre j m (by omega)) (by simpa using herr)
    constructor
    · simp [iteratorRun, hsa, hdrv, hcr, htok, hcli, hprev, hopen, hstream,
        getAllocatedBlocks, hloop]
    · intro x
      simp [iteratorRun, hsa, hdrv, hcr, htok, hcli, hprev, hopen, hstream,
        getAllocatedBlocks, hloop, done_not_in_numberedRecordCalls]
  · intro recs i hi
    have hg := numberedRecordCalls_getD recs 0 i hi
    simpa using hg

/-- The record stream of the C7 witness: two fixed-length records. -/
def c7Recs : List APIGetMetadataAllocatedResponse :=
  [⟨1, 1024, [⟨0, 256⟩]⟩, ⟨1, 1024, [⟨256, 256⟩]⟩]

/-- The run environment of the C7 witness: every pre-stream step succeeds
and the Allocated stream yields the two records then a clean close. -/
def c7Env : RunEnv :=
  { ssrUsername := .error "unused", primarySnapshotDriver := .error (.other "unused"),
    smsCR := fun _ => .ok ⟨"aud", "addr", "ca"⟩, securityToken := fun _ _ _ => .ok "tok",
    grpcClientErr := none, streamOpenErr := none, allocStream := ⟨c7Recs, .eof⟩,
    deltaStream := ⟨[], .eof⟩ }

/-- The args of the C7 witness: explicit identity and driver, Allocated
call. -/
def c7Args : Args :=
  { clients := ⟨none⟩, emitter := none, nsName := "test-ns", snapshotName := "snap-1",
    prevSnapshotName := "", startingOffset := 0, maxResults := 0, csiDriver := "driver-X",
    saNamespace := "sa-ns", saName := "sa-1", tokenExpirySecs := 600 }

/-- The C7 witness emitter that accepts everything. -/
def c7EmOk : IteratorEmitter := ⟨fun _ _ => none, fun _ => none⟩

/-- The C7 witness emitter that rejects record number 2. -/
def c7EmErrAt2 : IteratorEmitter :=
  ⟨fun j _ => if j = 2 then some (.other "sink abort") else none, fun _ => none⟩

/-- Witness for C7: the clean run delivers records 1 and 2 then the
completion call with count 2; the aborted run returns the sink error after
delivering record 1 and the failing record 2, with no completion call; the
second clean-run call carries number 2. -/
theorem claim_C7_sink_delivery_protocol_witness :
    (iteratorRun c7Env c7EmOk c7Args =
      (none,
        [.fetchSmsCR "driver-X", .createToken "sa-ns" "sa-1" "aud", .newGRPCClient] ++
          (numberedRecordCalls 0 c7Recs).map IterEffect.sink ++
          [.sink (.done 2)])) ∧
    (iteratorRun c7Env c7EmErrAt2 c7Args =
      (some (.other "sink abort"),
        [.fetchSmsCR "driver-X", .createToken "sa-ns" "sa-1" "aud", .newGRPCClient] ++
          (numberedRecordCalls 0 [(⟨1, 1024, [⟨0, 256⟩]⟩ : APIGetMetadataAllocatedResponse)] ++
            [SinkCall.record 2
              (metadataOf (⟨1, 1024, [⟨256, 256⟩]⟩ : APIGetMetadataAllocatedResponse))]).map
            IterEffect.sink) ∧
      ∀ x, IterEffect.sink (.done x) ∉ (iteratorRun c7Env c7EmErrAt2 c7Args).2) ∧
    ((numberedRecordCalls 0 c7Recs).getD 1 (.done 0) =
      .record 2 (metadataOf (c7Recs.getD 1 ⟨0, 0, []⟩))) := by
  refine ⟨?_, ?_, ?_⟩
  · exact (claim_C7_sink_delivery_protocol c7Env c7EmOk c7Args ⟨"aud", "addr", "ca"⟩ "tok"
      (by decide) (by decide) rfl rfl rfl rfl rfl).1 c7Recs rfl (fun _ _ => rfl)
  · exact (claim_C7_sink_delivery_protocol c7Env c7EmErrAt2 c7Args ⟨"aud", "addr", "ca"⟩ "tok"
      (by decide) (by decide) rfl rfl rfl rfl rfl).2.1
      [⟨1, 1024, [⟨0, 256⟩]⟩] ⟨1, 1024, [⟨256, 256⟩]⟩ [] (.other "sink abort") rfl
      (by
        intro j m hj
        simp only [List.length_singleton] at hj
        simp only [c7EmErrAt2]
        simp [show j ≠ 2 by omega])
      (by decide)
  · exact (claim_C7_sink_delivery_protocol c7Env c7EmOk c7Args ⟨"aud", "addr", "ca"⟩ "tok"
      (by decide) (by decide) rfl rfl rfl rfl rfl).2.2 c7Recs 1 (by decide)

/-- The terminal read outcome of a device: end of file, or a read error. -/
inductive DevTerminal where
  | eof
  | readErr (msg : String)
  deriving DecidableEq

/-- A block device as read by the verifier: its byte content (bytes as Nat)
and the terminal outcome reached after the content is exhausted.  Reads of a
regular file or device return the full requested count until the remaining
bytes run short, then the terminal outcome. -/
structure Device where
  content : List Nat
  terminal : DevTerminal

/-- The fixed mismatch message of the verifier. -/
def msgDevContentsMismatch : String := "source and target device contents do not match"

/-- The read-error message of the verifier, with both quoted errors. -/
def msgDevReadError (s t : String) : String :=
  "error reading source and target device contents: source(" ++ s ++ ") target(" ++ t ++ ")"

/-- The Go quoted rendering of a possibly-nil error. -/
def goErrQuote : Option String → String
  | none => "%!q(<nil>)"
  | some m => m

/-- The comparison loop of SnapshotMetadataIteratorDone.  Each iteration
reads one chunk of at most 256 bytes from each device into its 256-byte
buffer; the code ignores the byte count returned by the reads, so a partial
read leaves the previous bytes in the tail of the buffer, and the full
buffers are compared.  Terminal outcomes are classified as in the source:
both at end of file is success, one at end of file is a content mismatch,
and otherwise the read-error message.  The fuel argument only bounds the
iteration count; the wrapper supplies enough for any input, since every
non-terminal iteration consumes at least one source byte. -/
def verifierCompareLoop : Nat → List Nat → List Nat → List Nat → List Nat →
    DevTerminal → DevTerminal → Option String
  | 0, _, _, _, _, _, _ => some "out of fuel"
  | fuel + 1, srcBuf, tgtBuf, src, tgt, tS, tT =>
    match src, tgt with
    | [], [] =>
      match tS, tT with
      | .eof, .eof => none
      | .eof, .readErr _ => some msgDevContentsMismatch
      | .readErr _, .eof => some msgDevContentsMismatch
      | .readErr a, .readErr b =>
        some (msgDevReadError (goErrQuote (some a)) (goErrQuote (some b)))
    | [], _ :: _ =>
      match tS with
      | .eof => some msgDevContentsMismatch
      | .readErr a => some (msgDevReadError (goErrQuote (some a)) (goErrQuote none))
    | _ :: _, [] =>
      match tT with
      | .eof => some msgDevContentsMismatch
      | .readErr b => some (msgDevReadError (goErrQuote none) (goErrQuote (some b)))
    | s0 :: ss, t0 :: ts =>
      let srcRest := s0 :: ss
      let tgtRest := t0 :: ts
      let n := min 256 srcRest.length
      let m := min 256 tgtRest.length
      let srcBufNew := srcRest.take n ++ srcBuf.drop n
      let tgtBufNew := tgtRest.take m ++ tgtBuf.drop m
      if srcBufNew ≠ tgtBufNew then some msgDevContentsMismatch
      else verifierCompareLoop fuel srcBufNew tgtBufNew (srcRest.drop n) (tgtRest.drop m) tS tT

/-- VerifierEmitter.SnapshotMetadataIteratorDone: compare the source and
target devices from the start in 256-byte chunk reads with zero-initialized
buffers. -/
def snapshotMetadataIteratorDone (src tgt : Device) : Option String :=
  verifierCompareLoop (src.content.length + tgt.content.length + 1)
    (List.replicate 256 0) (List.replicate 256 0)
    src.content tgt.content src.terminal tgt.terminal

/-- C10: the completion callback does not return success only when every
corresponding chunk pair is byte-equal: for the one-byte source device [7]
and the two-byte target device [7, 0] it returns success, although the
chunk pair ([7]) versus ([7, 0]) is not byte-equal and the contents differ;
the cause is that the code ignores the byte counts returned by the reads
and compares full 256-byte buffers whose tails keep stale bytes.  Equal
contents still succeed and a first-chunk difference is still reported. -/
theorem claim_C10_verifier_done_success_on_unequal_contents :
    snapshotMetadataIteratorDone ⟨[7], .eof⟩ ⟨[7, 0], .eof⟩ = none ∧
    snapshotMetadataIteratorDone ⟨[7], .eof⟩ ⟨[8, 0], .eof⟩ = some msgDevContentsMismatch ∧
    snapshotMetadataIteratorDone ⟨[7], .eof⟩ ⟨[7], .eof⟩ = none := by
  refine ⟨?_, ?_, ?_⟩ <;> decide

end SnapshotMetadata
